import Mathlib

/-!
Verification of the Assetto Corsa telemetry dashboard's wire-protocol core
(`dashboard/telemetry_parser.py`, `dashboard/main.py`,
`dashboard/controls/vehicle_controls.py`) against its specification.

Shallow embedding conventions:
* a Python `bytes` value is a `List Nat` whose entries are the byte values;
* Python floats that originate from `struct.unpack('<f', …)` are modelled by
  `F32`: the exact rational value of the IEEE-754 binary32 bit pattern, with
  explicit constructors for the infinities and NaN;
* float arithmetic on those values (`* 0.621371`, `- 1.896`, comparisons) is
  idealised as exact rational arithmetic, matching the spec's
  "within floating-point tolerance" reading;
* a Python function that can return `None`, `{}` or a populated dict is
  modelled by an inductive with one constructor per distinct return shape.
-/

set_option maxRecDepth 100000

namespace ACDash

/-- Assemble four bytes into a little-endian 32-bit unsigned value
(`struct.unpack('<I', …)`). -/
def leU32 (b0 b1 b2 b3 : Nat) : Nat :=
  b0 + b1 * 256 + b2 * 65536 + b3 * 16777216

/-- The four little-endian bytes of a 32-bit unsigned value
(`struct.pack('<I', …)`). -/
def u32le (n : Nat) : List Nat :=
  [n % 256, n / 256 % 256, n / 65536 % 256, n / 16777216 % 256]

/-- The four little-endian bytes of a signed 32-bit value
(`struct.pack('<i', …)`), via the two's-complement bit pattern. -/
def i32le (i : Int) : List Nat :=
  u32le ((i % 4294967296).toNat)

/-- Interpret a 32-bit unsigned value as a two's-complement signed value
(`struct.unpack('<i', …)`). -/
def toI32 (n : Nat) : Int :=
  if n < 2147483648 then (n : Int) else (n : Int) - 4294967296

/-- A value obtained from `struct.unpack('<f', …)`: an IEEE-754 binary32
datum, finite values carried as exact rationals. -/
inductive F32 where
  | fin (q : ℚ)
  | pinf
  | ninf
  | nan
  deriving DecidableEq, Repr

/-- Decode a 32-bit pattern as an IEEE-754 binary32 value. -/
def decodeF32bits (n : Nat) : F32 :=
  let s := n / 2147483648 % 2
  let e := n / 8388608 % 256
  let m := n % 8388608
  if e = 255 then
    if m = 0 then (if s = 0 then .pinf else .ninf) else .nan
  else
    let mag : ℚ :=
      if e = 0 then (m : ℚ) / 2 ^ 149
      else ((8388608 + m : ℕ) : ℚ) * 2 ^ e / 2 ^ 150
    .fin (if s = 0 then mag else -mag)

/-- Read byte `i` of a payload (in-range in every use site; out-of-range
reads default to 0 and are ruled out by the length prechecks). -/
def byteAt (d : List Nat) (i : Nat) : Nat := d.getD i 0

/-- `struct.unpack('<f', data[off:off+4])`. -/
def readF32 (d : List Nat) (off : Nat) : F32 :=
  decodeF32bits (leU32 (byteAt d off) (byteAt d (off + 1))
    (byteAt d (off + 2)) (byteAt d (off + 3)))

/-- `struct.unpack('<i', data[off:off+4])`. -/
def readI32 (d : List Nat) (off : Nat) : Int :=
  toI32 (leU32 (byteAt d off) (byteAt d (off + 1))
    (byteAt d (off + 2)) (byteAt d (off + 3)))

/-- `struct.unpack('<I', data[off:off+4])`. -/
def readU32 (d : List Nat) (off : Nat) : Nat :=
  leU32 (byteAt d off) (byteAt d (off + 1)) (byteAt d (off + 2)) (byteAt d (off + 3))

/-- Python `int(x)` on a float: truncation toward zero; raises on NaN and
the infinities, modelled as `none`. -/
def f32TruncToInt : F32 → Option Int
  | .fin q => some (if 0 ≤ q then ⌊q⌋ else ⌈q⌉)
  | _ => none

/-- Multiply a binary32-originated float by a positive rational constant
(Python float arithmetic, idealised as exact). -/
def f32MulPos (x : F32) (c : ℚ) : F32 :=
  match x with
  | .fin q => .fin (q * c)
  | .pinf => .pinf
  | .ninf => .ninf
  | .nan => .nan

/-- Subtract a rational constant from a binary32-originated float
(Python float arithmetic, idealised as exact). -/
def f32SubConst (x : F32) (c : ℚ) : F32 :=
  match x with
  | .fin q => .fin (q - c)
  | .pinf => .pinf
  | .ninf => .ninf
  | .nan => .nan

/-- Python `abs(x) > c` for a float `x` and finite positive constant `c`
(NaN compares false; infinities compare true). -/
def f32AbsGt (x : F32) (c : ℚ) : Bool :=
  match x with
  | .fin q => decide (c < |q|)
  | .pinf => true
  | .ninf => true
  | .nan => false

/-- Python `abs(x) < c` for a float `x` and finite positive constant `c`
(NaN compares false; infinities compare false). -/
def f32AbsLt (x : F32) (c : ℚ) : Bool :=
  match x with
  | .fin q => decide (|q| < c)
  | .pinf => false
  | .ninf => false
  | .nan => false

/-- Is a byte a UTF-8 continuation byte (`0x80–0xBF`)? -/
def utf8Cont (b : Nat) : Bool := 128 ≤ b && b ≤ 191

/-- One step of CPython's UTF-8 decoder on a nonempty byte list headed by
`b`: the remaining bytes after the step and the code point emitted, if any
(`none` means the step skipped an invalid maximal subpart, or hit a
truncated sequence at end of input and consumed it all). Each step consumes
at least one byte. -/
def utf8Step (b : Nat) (rest : List Nat) : List Nat × Option Nat :=
  if b < 128 then (rest, some b)
  else if 194 ≤ b && b ≤ 223 then
    match rest with
    | [] => ([], none)
    | c1 :: rest1 =>
      if utf8Cont c1 then (rest1, some ((b - 192) * 64 + (c1 - 128)))
      else (c1 :: rest1, none)
  else if 224 ≤ b && b ≤ 239 then
    let lo1 := if b = 224 then 160 else 128
    let hi1 := if b = 237 then 159 else 191
    match rest with
    | [] => ([], none)
    | c1 :: rest1 =>
      if lo1 ≤ c1 && c1 ≤ hi1 then
        match rest1 with
        | [] => ([], none)
        | c2 :: rest2 =>
          if utf8Cont c2 then
            (rest2, some ((b - 224) * 4096 + (c1 - 128) * 64 + (c2 - 128)))
          else (c2 :: rest2, none)
      else (c1 :: rest1, none)
  else if 240 ≤ b && b ≤ 244 then
    let lo1 := if b = 240 then 144 else 128
    let hi1 := if b = 244 then 143 else 191
    match rest with
    | [] => ([], none)
    | c1 :: rest1 =>
      if lo1 ≤ c1 && c1 ≤ hi1 then
        match rest1 with
        | [] => ([], none)
        | c2 :: rest2 =>
          if utf8Cont c2 then
            match rest2 with
            | [] => ([], none)
            | c3 :: rest3 =>
              if utf8Cont c3 then
                (rest3, some ((b - 240) * 262144 + (c1 - 128) * 4096 +
                  (c2 - 128) * 64 + (c3 - 128)))
              else (c3 :: rest3, none)
          else (c2 :: rest2, none)
      else (c1 :: rest1, none)
  else (rest, none)

/-- Driver for `bytes.decode('utf-8', errors='ignore')`: fuel-based
recursion (the fuel starts at the list length and every step consumes at
least one byte, so the fuel never runs out before the list does). A step
that skips invalid data emits nothing. -/
def utf8IgnoreAux : Nat → List Nat → List Nat
  | 0, _ => []
  | _, [] => []
  | fuel + 1, b :: rest =>
    match utf8Step b rest with
    | (rem, some cp) => cp :: utf8IgnoreAux fuel rem
    | (rem, none) => utf8IgnoreAux fuel rem

/-- CPython `bytes.decode('utf-8', errors='ignore')`, producing the list of
decoded code points. Invalid data is skipped by maximal subpart: an invalid
lead byte is skipped alone; a valid prefix of a multi-byte sequence whose
next byte is out of range is skipped without consuming that next byte; a
truncated sequence at end of input is dropped. -/
def utf8DecodeIgnore (l : List Nat) : List Nat :=
  utf8IgnoreAux l.length l

/-- Driver for `bytes.decode('utf-8', errors='replace')`: like
`utf8IgnoreAux` but each skipped invalid portion emits one U+FFFD. -/
def utf8ReplaceAux : Nat → List Nat → List Nat
  | 0, _ => []
  | _, [] => []
  | fuel + 1, b :: rest =>
    match utf8Step b rest with
    | (rem, some cp) => cp :: utf8ReplaceAux fuel rem
    | (rem, none) => 65533 :: utf8ReplaceAux fuel rem

/-- `bytes.decode('utf-8', errors='replace')`, the behaviour the spec
prescribes for the handshake names: each skipped invalid portion becomes
one U+FFFD replacement character. Stated from the spec's words, for
comparison with `utf8DecodeIgnore`. -/
def utf8DecodeReplace (l : List Nat) : List Nat :=
  utf8ReplaceAux l.length l

/-- Python `str.rstrip('\x00')` on a decoded string, as code points. -/
def rstripNul (s : List Nat) : List Nat :=
  ((s.reverse).dropWhile (· = 0)).reverse

/-- The gear-recommendation values `'SHIFT UP'`, `'SHIFT DOWN'`,
`'OPTIMAL'` of `_calculate_derived_values`. -/
inductive GearRec where
  | shiftUp
  | shiftDown
  | optimal
  deriving DecidableEq, Repr

/-- The shift-recommendation branch of `_calculate_derived_values`
(`rpm` and `max_rpm` are the `int(...)`-truncated dict entries). -/
def gearRecommendation (rpm maxRpm : Int) : GearRec :=
  if (rpm : ℚ) > (maxRpm : ℚ) * (85 / 100) then .shiftUp
  else if (rpm : ℚ) < (maxRpm : ℚ) * (3 / 10) then .shiftDown
  else .optimal

/-- Square of a float (`x ** 2`). -/
def f32Sq : F32 → F32
  | .fin q => .fin (q ^ 2)
  | .nan => .nan
  | _ => .pinf

/-- Sum of two squared floats (both arguments are squares, hence never
`ninf`). -/
def f32SqAdd : F32 → F32 → F32
  | .fin a, .fin b => .fin (a + b)
  | .nan, _ => .nan
  | _, .nan => .nan
  | _, _ => .pinf

/-- The per-wheel lock booleans of `_calculate_derived_values`:
`abs(slip) > 0.1 and abs(angular_speed) < 1.0` for each wheel. -/
def wheelLockList (angular slip : List F32) : List Bool :=
  List.zipWith (fun a s => f32AbsGt s (1 / 10) && f32AbsLt a 1) angular slip

/-- A fully populated Update result dict: the base decoded fields of
`_parse_update` plus the derived fields merged in by
`result.update(self._calculate_derived_values(result))`.
`g_force_total_sq` records the radicand `g_lat**2 + g_lon**2`; the code
stores its square root (`** 0.5`), irrational in general, and no property
in scope depends on the rooted value. -/
structure UpdateData where
  speed_kmh : F32
  speed_mph : F32
  rpm : Int
  max_rpm : Int
  gear : Int
  g_force_lateral : F32
  g_force_longitudinal : F32
  g_force_vertical : F32
  lap_time : ℚ
  last_lap : ℚ
  best_lap : ℚ
  lap_count : Int
  fuel : F32
  car_velocity : List F32
  car_acceleration : List F32
  wheel_angular_speed : List F32
  wheel_slip : List F32
  wheel_load : List F32
  tire_pressure : List F32
  tire_temperature_core : List F32
  suspension_travel : List F32
  wheel_lock : List Bool
  abs_in_action : Bool
  tire_pressure_delta : List F32
  gear_recommendation : GearRec
  g_force_total_sq : F32
  deriving DecidableEq, Repr

/-- The possible return values of `TelemetryParser.parse`: Python `None`,
the empty dict `{}`, or one of the three populated dict shapes. -/
inductive ParseOutcome where
  | failNone
  | failEmpty
  | handshake (car_name driver_name : List Nat)
  | update (u : UpdateData)
  | spot
  deriving DecidableEq, Repr

/-- `TelemetryParser._parse_handshaker` (argument: the payload after the
4-byte tag). Payloads shorter than 8 bytes return the empty dict. The two
name lengths are read at payload offsets 0 and 4, the names follow
back-to-back, are decoded with `errors='ignore'` and stripped of trailing
NULs. Python slices clamp, as `take`/`drop` do. -/
def parse_handshaker (d : List Nat) : ParseOutcome :=
  if d.length < 8 then .failEmpty
  else
    let carLen := readU32 d 0
    let drvLen := readU32 d 4
    let carBytes := (d.drop 8).take carLen
    let drvBytes := ((d.drop 8).drop carLen).take drvLen
    .handshake (rstripNul (utf8DecodeIgnore carBytes))
      (rstripNul (utf8DecodeIgnore drvBytes))

/-- `TelemetryParser._parse_update` (argument: the payload after the
4-byte tag). Payloads shorter than 328 bytes return the empty dict. The
offset chain mirrors the source's sequential `offset += …` bookkeeping.
`int(rpm)` / `int(max_rpm)` raise on NaN or infinite floats; the
surrounding `except` then returns the empty dict, modelled by the `none`
branches of `f32TruncToInt`. -/
def parse_update (d : List Nat) : ParseOutcome :=
  if d.length < 328 then .failEmpty
  else
    let o0 := 0
    let speed_kmh := readF32 d o0
    let o1 := o0 + 4
    let o2 := o1 + 8
    let rpmF := readF32 d o2
    let o3 := o2 + 4
    let maxRpmF := readF32 d o3
    let o4 := o3 + 4
    let gear := readI32 d o4
    let o5 := o4 + 4
    let gx := readF32 d o5
    let o6 := o5 + 4
    let gy := readF32 d o6
    let o7 := o6 + 4
    let gz := readF32 d o7
    let o8 := o7 + 4
    let lapTime := (readI32 d o8 : ℚ) / 1000
    let o9 := o8 + 4
    let lastLap := (readI32 d o9 : ℚ) / 1000
    let o10 := o9 + 4
    let bestLap := (readI32 d o10 : ℚ) / 1000
    let o11 := o10 + 4
    let lapCount := readI32 d o11
    let o12 := o11 + 4
    let fuel := readF32 d o12
    let o13 := o12 + 4
    let o14 := o13 + 12
    let vx := readF32 d o14
    let o15 := o14 + 4
    let vy := readF32 d o15
    let o16 := o15 + 4
    let vz := readF32 d o16
    let o17 := o16 + 4
    let ax := readF32 d o17
    let o18 := o17 + 4
    let ay := readF32 d o18
    let o19 := o18 + 4
    let az := readF32 d o19
    let o20 := o19 + 4
    let was := [readF32 d o20, readF32 d (o20 + 4), readF32 d (o20 + 8),
      readF32 d (o20 + 12)]
    let o21 := o20 + 16
    let ws := [readF32 d o21, readF32 d (o21 + 4), readF32 d (o21 + 8),
      readF32 d (o21 + 12)]
    let o22 := o21 + 16
    let wl := [readF32 d o22, readF32 d (o22 + 4), readF32 d (o22 + 8),
      readF32 d (o22 + 12)]
    let o23 := o22 + 16
    let tp := [readF32 d o23, readF32 d (o23 + 4), readF32 d (o23 + 8),
      readF32 d (o23 + 12)]
    let o24 := o23 + 16
    let tt := [readF32 d o24, readF32 d (o24 + 4), readF32 d (o24 + 8),
      readF32 d (o24 + 12)]
    let o25 := o24 + 16
    let st := [readF32 d o25, readF32 d (o25 + 4), readF32 d (o25 + 8),
      readF32 d (o25 + 12)]
    match f32TruncToInt rpmF, f32TruncToInt maxRpmF with
    | some rpmI, some maxI =>
      let lock := wheelLockList was ws
      .update
        { speed_kmh := speed_kmh
          speed_mph := f32MulPos speed_kmh (621371 / 1000000)
          rpm := rpmI
          max_rpm := maxI
          gear := gear
          g_force_lateral := gx
          g_force_longitudinal := gy
          g_force_vertical := gz
          lap_time := lapTime
          last_lap := lastLap
          best_lap := bestLap
          lap_count := lapCount
          fuel := fuel
          car_velocity := [vx, vy, vz]
          car_acceleration := [ax, ay, az]
          wheel_angular_speed := was
          wheel_slip := ws
          wheel_load := wl
          tire_pressure := tp
          tire_temperature_core := tt
          suspension_travel := st
          wheel_lock := lock
          abs_in_action := lock.any id
          tire_pressure_delta := tp.map (f32SubConst · (1896 / 1000))
          gear_recommendation := gearRecommendation rpmI maxI
          g_force_total_sq := f32SqAdd (f32Sq gx) (f32Sq gy) }
    | _, _ => .failEmpty

/-- `TelemetryParser.parse`: datagrams shorter than 4 bytes return `None`;
otherwise dispatch on the 4-byte little-endian tag
(0 → handshaker, 1 → update, 2 → spot, anything else → `None`). -/
def parse : List Nat → ParseOutcome
  | b0 :: b1 :: b2 :: b3 :: rest =>
    let tag := leU32 b0 b1 b2 b3
    if tag = 0 then parse_handshaker rest
    else if tag = 1 then parse_update rest
    else if tag = 2 then .spot
    else .failNone
  | _ => .failNone

/-- Python truthiness of a `parse` return value: `None` and `{}` are
falsy, every populated dict is truthy. -/
def isTruthy : ParseOutcome → Bool
  | .failNone => false
  | .failEmpty => false
  | _ => true

/-- The dict key shared by all populated parse results. -/
inductive PacketTag where
  | handshaker
  | update
  | spot
  deriving DecidableEq, Repr

/-- The dashboard's `current_data` dict, viewed by key groups: the
handshake keys, the update keys (always set together by one update dict),
and the shared `packet_type` key. `none` = key never set. -/
structure CurrentData where
  car_name : Option (List Nat)
  driver_name : Option (List Nat)
  upd : Option UpdateData
  packet_type : Option PacketTag
  deriving DecidableEq, Repr

/-- `self.current_data.update(parsed_data)`: key-wise merge of one
populated parse result into `current_data`. -/
def dictMerge (cur : CurrentData) : ParseOutcome → CurrentData
  | .handshake c d =>
    { cur with
      car_name := some c
      driver_name := some d
      packet_type := some .handshaker }
  | .update u => { cur with upd := some u, packet_type := some .update }
  | .spot => { cur with packet_type := some .spot }
  | _ => cur

/-- `ACTelemetryDashboard.process_telemetry_data`: parse the datagram and
merge the result into `current_data` only when it is truthy. -/
def process_telemetry_data (cur : CurrentData) (data : List Nat) : CurrentData :=
  let p := parse data
  if isTruthy p then dictMerge cur p else cur

/-! ## Control session (`controls/vehicle_controls.py`) -/

/-- A Python value passed to `send_command`, classified the way
`_build_command_packet` classifies it: `bool` (checked first, since Python
`bool` is a subclass of `int`), other `int`, `float` (carried as the
IEEE-754 binary32 bit pattern that `struct.pack('<f', …)` produces), or
any other type. -/
inductive CValue where
  | bool (b : Bool)
  | int (i : Int)
  | float (bits : Nat)
  | other
  deriving DecidableEq, Repr

/-- `VehicleControls._get_command_type`: the fixed name → wire-code
registry (`ACControlCommand`). -/
def get_command_type : String → Option Nat
  | "tc_level" => some 1
  | "abs_level" => some 2
  | "brake_bias" => some 3
  | "turbo_pressure" => some 4
  | "headlights" => some 5
  | "left_indicator" => some 6
  | "right_indicator" => some 7
  | "hazard_lights" => some 8
  | "wipers" => some 9
  | "pit_limiter" => some 10
  | "open_pit_menu" => some 11
  | "engine_map" => some 12
  | "ignition" => some 13
  | _ => none

/-- `VehicleControls._build_command_packet`: 4-byte LE command code, then
4-byte LE value-type tag (1 bool, 2 int, 3 float), then the value.
`struct.pack('<i', …)` raises on an out-of-range int (the `except` then
returns `None`); a float bit pattern always packs; an unsupported type
returns `None`. -/
def build_command_packet (commandType : Nat) (v : CValue) : Option (List Nat) :=
  match v with
  | .bool b =>
    some (u32le commandType ++ u32le 1 ++ u32le (if b then 1 else 0))
  | .int i =>
    if -2147483648 ≤ i ∧ i < 2147483648 then
      some (u32le commandType ++ u32le 2 ++ i32le i)
    else none
  | .float bits => some (u32le commandType ++ u32le 3 ++ u32le bits)
  | .other => none

/-- One entry of `VehicleControls.last_commands`: the value and send time
recorded on a successful send. -/
structure CmdRecord where
  value : CValue
  timestamp : ℚ
  deriving DecidableEq, Repr

/-- Python dict assignment `self.last_commands[command] = …` on an
association-list view of the map: overwrite in place or append. -/
def histSet : List (String × CmdRecord) → String → CmdRecord →
    List (String × CmdRecord)
  | [], n, r => [(n, r)]
  | (k, v) :: t, n, r =>
    if k = n then (n, r) :: t else (k, v) :: histSet t n r

/-- `VehicleControls.get_last_command`. -/
def get_last_command (h : List (String × CmdRecord)) (name : String) :
    Option CmdRecord :=
  (h.find? (·.1 == name)).map (·.2)

/-- The distinct outcomes of `VehicleControls.send_command` (the code
returns `False` on the first three, distinguished by its printed message,
and `True` on the last). -/
inductive SendOutcome where
  | noSocket
  | unknownCommand
  | packFailed
  | sent
  deriving DecidableEq, Repr

/-- `VehicleControls.send_command`, as a transformation of the
command-history map. Returns (outcome, new history, datagram handed to
`sendto`, if any). `socketOk` is whether `setup_control_socket` succeeded;
transmission itself is the fire-and-forget datagram send and is modelled
as succeeding. A built packet is never the empty byte string, so
`if not packet` coincides with `packet is None`. -/
def send_command (socketOk : Bool) (hist : List (String × CmdRecord))
    (name : String) (v : CValue) (now : ℚ) :
    SendOutcome × List (String × CmdRecord) × Option (List Nat) :=
  if socketOk = false then (.noSocket, hist, none)
  else
    match get_command_type name with
    | none => (.unknownCommand, hist, none)
    | some code =>
      match build_command_packet code v with
      | none => (.packFailed, hist, none)
      | some pkt => (.sent, histSet hist name ⟨v, now⟩, some pkt)

/-! ## Connection monitor (`main.py`, `telemetry_loop`) -/

/-- One iteration outcome of `telemetry_loop`: a successful datagram
receive, a `socket.timeout`, or any other transport exception (the generic
`except` branch, which leaves `self.connected` untouched). -/
inductive ConnEvent where
  | recv
  | timeout
  | error
  deriving DecidableEq, Repr

/-- The two-state connection signal `self.connected`. -/
inductive ConnState where
  | disconnected
  | connected
  deriving DecidableEq, Repr

/-- One loop iteration's effect on `self.connected`: on receive,
`if not self.connected: self.connected = True`; on timeout,
`if self.connected: self.connected = False`; other errors change
nothing. -/
def connStep (s : ConnState) : ConnEvent → ConnState
  | .recv => if s = .disconnected then .connected else s
  | .timeout => if s = .connected then .disconnected else s
  | .error => s

/-- The connection state after the loop has processed a sequence of
events, starting from the initial `self.connected = False`. -/
def connRun (es : List ConnEvent) : ConnState :=
  es.foldl connStep .disconnected

/-! ## Concrete inputs used by witnesses and counterexamples -/

/-- The rpm, max-rpm and shift-recommendation entries of an update
result. -/
def updRec : ParseOutcome → Option (Int × Int × GearRec)
  | .update u => some (u.rpm, u.max_rpm, u.gear_recommendation)
  | _ => none

/-- A 328-byte all-zero Update payload. -/
def zeroPayload : List Nat := List.replicate 328 0

/-- The result of decoding `zeroPayload`: every float field is +0.0,
every int 0, no wheel locked, pressure deltas all `-1.896`, and with
`rpm = max_rpm = 0` neither threshold comparison fires, so the
recommendation is OPTIMAL. -/
def zeroUpdate : UpdateData where
  speed_kmh := .fin 0
  speed_mph := .fin 0
  rpm := 0
  max_rpm := 0
  gear := 0
  g_force_lateral := .fin 0
  g_force_longitudinal := .fin 0
  g_force_vertical := .fin 0
  lap_time := 0
  last_lap := 0
  best_lap := 0
  lap_count := 0
  fuel := .fin 0
  car_velocity := [.fin 0, .fin 0, .fin 0]
  car_acceleration := [.fin 0, .fin 0, .fin 0]
  wheel_angular_speed := [.fin 0, .fin 0, .fin 0, .fin 0]
  wheel_slip := [.fin 0, .fin 0, .fin 0, .fin 0]
  wheel_load := [.fin 0, .fin 0, .fin 0, .fin 0]
  tire_pressure := [.fin 0, .fin 0, .fin 0, .fin 0]
  tire_temperature_core := [.fin 0, .fin 0, .fin 0, .fin 0]
  suspension_travel := [.fin 0, .fin 0, .fin 0, .fin 0]
  wheel_lock := [false, false, false, false]
  abs_in_action := false
  tire_pressure_delta :=
    [.fin (-(1896 / 1000)), .fin (-(1896 / 1000)), .fin (-(1896 / 1000)),
     .fin (-(1896 / 1000))]
  gear_recommendation := .optimal
  g_force_total_sq := .fin 0

/-- A 328-byte Update payload whose rpm field (offset 12) holds the
binary32 value 5000.0 (bytes `00 40 9C 45`) and whose max-rpm field
(offset 16) holds 0.0. -/
def rpmNoMaxPayload : List Nat :=
  List.replicate 12 0 ++ [0, 64, 156, 69] ++ List.replicate 312 0

/-- The wire value-type tag the spec assigns to each value kind
(1 = boolean, 2 = signed 32-bit integer, 3 = 32-bit float). Stated from
the spec's words, for comparison with `build_command_packet`. -/
def valueTag : CValue → Nat
  | .bool _ => 1
  | .int _ => 2
  | .float _ => 3
  | .other => 0

/-- The little-endian value bytes the spec prescribes per tag: a boolean
as a 4-byte integer 0/1, an int as 4 LE two's-complement bytes, a float
as the 4 LE bytes of its binary32 pattern. Stated from the spec's words,
for comparison with `build_command_packet`. -/
def valueBytes : CValue → List Nat
  | .bool b => u32le (if b then 1 else 0)
  | .int i => i32le i
  | .float bits => u32le bits
  | .other => []

/-- The values `struct.pack` accepts: any bool, an int within signed
32-bit range, any float; anything else is unsupported. -/
def valueEncodable : CValue → Prop
  | .bool _ => True
  | .int i => -2147483648 ≤ i ∧ i < 2147483648
  | .float _ => True
  | .other => False

/-! ## Helper lemmas -/

/-- Reassembling the four little-endian bytes of a 32-bit value gives the
value back. -/
theorem leU32_u32le (n : Nat) (h : n < 4294967296) :
    leU32 (n % 256) (n / 256 % 256) (n / 65536 % 256) (n / 16777216 % 256) =
      n := by
  unfold leU32
  omega

theorem readU32_cons_0 (a0 a1 a2 a3 : Nat) (rest : List Nat) :
    readU32 (a0 :: a1 :: a2 :: a3 :: rest) 0 = leU32 a0 a1 a2 a3 := rfl

theorem readU32_cons_4 (a0 a1 a2 a3 a4 a5 a6 a7 : Nat) (rest : List Nat) :
    readU32 (a0 :: a1 :: a2 :: a3 :: a4 :: a5 :: a6 :: a7 :: rest) 4 =
      leU32 a4 a5 a6 a7 := rfl

theorem drop8_cons (a0 a1 a2 a3 a4 a5 a6 a7 : Nat) (rest : List Nat) :
    (a0 :: a1 :: a2 :: a3 :: a4 :: a5 :: a6 :: a7 :: rest).drop 8 = rest :=
  rfl

/-- Inverting a successful `_parse_update`: each field of the produced
dict in terms of the payload offsets of the spec's layout table. -/
theorem parse_update_fields (d : List Nat) (u : UpdateData)
    (h : parse_update d = .update u) :
    u.gear_recommendation = gearRecommendation u.rpm u.max_rpm ∧
    u.speed_kmh = readF32 d 0 ∧
    u.speed_mph = f32MulPos u.speed_kmh (621371 / 1000000) ∧
    u.wheel_angular_speed =
      [readF32 d 92, readF32 d 96, readF32 d 100, readF32 d 104] ∧
    u.wheel_slip =
      [readF32 d 108, readF32 d 112, readF32 d 116, readF32 d 120] ∧
    u.wheel_load =
      [readF32 d 124, readF32 d 128, readF32 d 132, readF32 d 136] ∧
    u.tire_pressure =
      [readF32 d 140, readF32 d 144, readF32 d 148, readF32 d 152] ∧
    u.tire_temperature_core =
      [readF32 d 156, readF32 d 160, readF32 d 164, readF32 d 168] ∧
    u.suspension_travel =
      [readF32 d 172, readF32 d 176, readF32 d 180, readF32 d 184] := by
  simp only [parse_update] at h
  split at h
  · exact absurd h (by simp)
  · split at h
    · cases h
      exact ⟨rfl, rfl, rfl, rfl, rfl, rfl, rfl, rfl, rfl⟩
    · exact absurd h (by simp)

/-- A receive always lands in `connected` and a timeout always lands in
`disconnected`, whatever the current state. -/
theorem connStep_recv (s : ConnState) : connStep s .recv = .connected := by
  cases s <;> rfl

theorem connStep_timeout (s : ConnState) : connStep s .timeout = .disconnected := by
  cases s <;> rfl

/-- The loop's state after any event sequence, from any starting state:
it is decided by the last receive-or-timeout event, and only a sequence
with no such event leaves the starting state visible. -/
theorem connFoldl_char (s : ConnState) (es : List ConnEvent) :
    es.foldl connStep s = .connected ↔
      ((es.filter (fun e => e != ConnEvent.error)).getLast? =
        some ConnEvent.recv ∨
       (es.filter (fun e => e != ConnEvent.error) = [] ∧ s = .connected)) := by
  induction es using List.reverseRecOn generalizing s with
  | nil => simp
  | append_singleton es e ih =>
    cases e with
    | recv =>
      simp [List.foldl_append, connStep_recv, List.filter_append]
    | timeout =>
      simp [List.foldl_append, connStep_timeout, List.filter_append]
    | error =>
      simpa [List.foldl_append, connStep, List.filter_append] using ih s

/-- Every byte of the all-zero payload is 0. -/
theorem byteAt_zeroPayload (i : Nat) : byteAt zeroPayload i = 0 := by
  rw [byteAt, zeroPayload, List.getD_eq_getElem?_getD]
  simp only [List.getElem?_getD_replicate_default_eq]

theorem zeroPayload_length : zeroPayload.length = 328 := by
  simp [zeroPayload]

/-- Every float read from the all-zero payload is +0.0. -/
theorem readF32_zeroPayload (off : Nat) : readF32 zeroPayload off = .fin 0 := by
  simp [readF32, byteAt_zeroPayload, leU32, decodeF32bits]

theorem readI32_zeroPayload (off : Nat) : readI32 zeroPayload off = 0 := by
  simp [readI32, byteAt_zeroPayload, leU32, toI32]

/-- Python `int(…)` of a float holding an integral value. -/
theorem f32TruncToInt_intCast (n : ℤ) :
    f32TruncToInt (.fin (n : ℚ)) = some n := by
  simp only [f32TruncToInt]
  split_ifs <;> simp

theorem f32TruncToInt_zero : f32TruncToInt (.fin 0) = some 0 := by
  simpa using f32TruncToInt_intCast 0

theorem f32TruncToInt_f5000 : f32TruncToInt (.fin 5000) = some 5000 := by
  have h : ((5000 : ℤ) : ℚ) = 5000 := by norm_num
  rw [← h, f32TruncToInt_intCast]

/-- The bit pattern `0x459C4000` is the binary32 value 5000.0. -/
theorem decodeF32bits_5000 : decodeF32bits 1167867904 = .fin 5000 := by
  unfold decodeF32bits
  norm_num

theorem f32AbsGt_zero : f32AbsGt (.fin 0) (1 / 10) = false := by
  unfold f32AbsGt
  simp only [abs_zero]
  exact decide_eq_false (by norm_num)

theorem f32AbsLt_zero : f32AbsLt (.fin 0) 1 = true := by
  unfold f32AbsLt
  simp only [abs_zero]
  exact decide_eq_true (by norm_num)

theorem gearRecommendation_zero : gearRecommendation 0 0 = .optimal := by
  unfold gearRecommendation
  norm_num

theorem gearRecommendation_5000_0 : gearRecommendation 5000 0 = .shiftUp := by
  unfold gearRecommendation
  norm_num

/-- Decoding the all-zero payload yields `zeroUpdate`. -/
theorem parse_update_zeroPayload :
    parse_update zeroPayload = .update zeroUpdate := by
  simp only [parse_update, zeroPayload_length, readF32_zeroPayload,
    readI32_zeroPayload, f32TruncToInt_zero]
  norm_num [zeroUpdate, f32MulPos, f32SubConst, f32Sq, f32SqAdd,
    wheelLockList, f32AbsGt_zero, f32AbsLt_zero, gearRecommendation_zero]

theorem rpmNoMaxPayload_length : rpmNoMaxPayload.length = 328 := by
  simp [rpmNoMaxPayload]

theorem decodeF32bits_zero : decodeF32bits 0 = .fin 0 := by
  unfold decodeF32bits
  norm_num

theorem leU32_rpmNoMax_12 :
    leU32 (byteAt rpmNoMaxPayload 12) (byteAt rpmNoMaxPayload (12 + 1))
      (byteAt rpmNoMaxPayload (12 + 2)) (byteAt rpmNoMaxPayload (12 + 3)) =
      1167867904 := by
  decide

theorem leU32_rpmNoMax_16 :
    leU32 (byteAt rpmNoMaxPayload 16) (byteAt rpmNoMaxPayload (16 + 1))
      (byteAt rpmNoMaxPayload (16 + 2)) (byteAt rpmNoMaxPayload (16 + 3)) =
      0 := by
  decide

/-- The rpm field of `rpmNoMaxPayload` decodes to 5000.0. -/
theorem readF32_rpmNoMax_12 : readF32 rpmNoMaxPayload 12 = .fin 5000 := by
  rw [readF32, leU32_rpmNoMax_12, decodeF32bits_5000]

/-- The max-rpm field of `rpmNoMaxPayload` decodes to 0.0. -/
theorem readF32_rpmNoMax_16 : readF32 rpmNoMaxPayload 16 = .fin 0 := by
  rw [readF32, leU32_rpmNoMax_16, decodeF32bits_zero]

/-! ## Claims -/

/-- C1, counterexample: the payload with `rpm = 5000.0` and
`max_rpm = 0.0` decodes to an Update whose recommendation is SHIFT_UP,
not OPTIMAL — `_calculate_derived_values` has no special case for
`max_rpm = 0` (with `max_rpm = 0`, `rpm > max_rpm * 0.85` is simply
`rpm > 0`). -/
theorem c1_counterexample :
    updRec (parse_update rpmNoMaxPayload) = some (5000, 0, GearRec.shiftUp) := by
  simp only [parse_update, rpmNoMaxPayload_length]
  norm_num [readF32_rpmNoMax_12, readF32_rpmNoMax_16, f32TruncToInt_zero,
    f32TruncToInt_f5000, updRec, gearRecommendation_5000_0]

/-- C1, amended: for every decoded Update, the recommendation is SHIFT_UP
iff `rpm > 0.85 * max_rpm` (strict), SHIFT_DOWN iff not SHIFT_UP and
`rpm < 0.30 * max_rpm`, and OPTIMAL otherwise — with no special case for
`max_rpm = 0`. -/
theorem c1_gear_recommendation (d : List Nat) (u : UpdateData)
    (h : parse_update d = .update u) :
    (u.gear_recommendation = .shiftUp ↔
      (u.rpm : ℚ) > (u.max_rpm : ℚ) * (85 / 100)) ∧
    (u.gear_recommendation = .shiftDown ↔
      ¬((u.rpm : ℚ) > (u.max_rpm : ℚ) * (85 / 100)) ∧
        (u.rpm : ℚ) < (u.max_rpm : ℚ) * (3 / 10)) ∧
    (u.gear_recommendation = .optimal ↔
      ¬((u.rpm : ℚ) > (u.max_rpm : ℚ) * (85 / 100)) ∧
        ¬((u.rpm : ℚ) < (u.max_rpm : ℚ) * (3 / 10))) := by
  rw [(parse_update_fields d u h).1]
  unfold gearRecommendation
  split_ifs with h1 h2 <;> simp_all

/-- C1 witness: the all-zero payload decodes with `rpm = max_rpm = 0` and
recommendation OPTIMAL, matching the amended characterisation. -/
theorem c1_gear_recommendation_witness :
    parse_update zeroPayload = .update zeroUpdate ∧
    (zeroUpdate.gear_recommendation = .optimal ↔
      ¬((zeroUpdate.rpm : ℚ) > (zeroUpdate.max_rpm : ℚ) * (85 / 100)) ∧
        ¬((zeroUpdate.rpm : ℚ) < (zeroUpdate.max_rpm : ℚ) * (3 / 10))) :=
  ⟨parse_update_zeroPayload,
    (c1_gear_recommendation zeroPayload zeroUpdate parse_update_zeroPayload).2.2⟩

/-- C2: a datagram tagged Update (tag bytes `01 00 00 00`) whose payload
is shorter than 328 bytes decodes to the empty dict — the code's
truncation failure — and `process_telemetry_data` leaves `current_data`
entirely unchanged. -/
theorem c2_update_truncated (payload : List Nat) (cur : CurrentData)
    (h : payload.length < 328) :
    parse (1 :: 0 :: 0 :: 0 :: payload) = .failEmpty ∧
    process_telemetry_data cur (1 :: 0 :: 0 :: 0 :: payload) = cur := by
  have hp : parse (1 :: 0 :: 0 :: 0 :: payload) = .failEmpty := by
    simp [parse, leU32, parse_update, h]
  exact ⟨hp, by simp [process_telemetry_data, hp, isTruthy]⟩

/-- C2 witness: the empty Update payload. -/
theorem c2_update_truncated_witness :
    ([] : List Nat).length < 328 ∧
    (parse [1, 0, 0, 0] = .failEmpty ∧
      process_telemetry_data ⟨none, none, none, none⟩ [1, 0, 0, 0] =
        ⟨none, none, none, none⟩) :=
  ⟨by decide, c2_update_truncated [] ⟨none, none, none, none⟩ (by decide)⟩

/-- C3, counterexample: a Dismiss datagram (tag 3) is not dispatched by
`parse` — it falls through to the unknown-tag branch and decode returns
`None`, a falsy failure result, so decode does not succeed for Dismiss. -/
theorem c3_counterexample :
    parse [3, 0, 0, 0] = .failNone ∧
    isTruthy (parse [3, 0, 0, 0]) = false := by
  decide

/-- C3, amended: a Spot datagram (tag 2) decodes successfully with only
the packet-type tag recorded and no payload interpretation, but a Dismiss
datagram (tag 3) returns `None`, the same failure result as an unknown
tag. -/
theorem c3_spot_dismiss (payload : List Nat) :
    parse (2 :: 0 :: 0 :: 0 :: payload) = .spot ∧
    isTruthy (parse (2 :: 0 :: 0 :: 0 :: payload)) = true ∧
    parse (3 :: 0 :: 0 :: 0 :: payload) = .failNone := by
  simp [parse, leU32, isTruthy]

/-- C4: the connection state starts Disconnected; a receive always lands
in Connected, a timeout always lands in Disconnected, the other two
state/event combinations change nothing; and over any event sequence the
final state is Connected exactly when the last receive-or-timeout event
was a receive (so a window containing a receive, which produces no
timeout event, keeps the state Connected). -/
theorem c4_connection_monitor (es : List ConnEvent) :
    connRun [] = .disconnected ∧
    connStep .disconnected .recv = .connected ∧
    connStep .connected .timeout = .disconnected ∧
    connStep .connected .recv = .connected ∧
    connStep .disconnected .timeout = .disconnected ∧
    (connRun es = .connected ↔
      (es.filter (fun e => e != ConnEvent.error)).getLast? =
        some ConnEvent.recv) := by
  refine ⟨rfl, rfl, rfl, rfl, rfl, ?_⟩
  rw [connRun, connFoldl_char]
  simp

/-- C5: for a known command name and an encodable value (bool, in-range
int, or float), the built control datagram is exactly the 4-byte LE
command code from the registry, then the 4-byte LE value-type tag, then
the value bytes per its tag. -/
theorem c5_command_packet_layout (name : String) (code : Nat) (v : CValue)
    (hname : get_command_type name = some code) (hv : valueEncodable v) :
    build_command_packet code v =
      some (u32le code ++ u32le (valueTag v) ++ valueBytes v) := by
  cases v with
  | bool b => rfl
  | int i =>
    simp only [build_command_packet, valueTag, valueBytes]
    exact if_pos hv
  | float bits => rfl
  | other => exact absurd hv id

/-- C5 witness: `tc_level` with the int value 3. -/
theorem c5_command_packet_layout_witness :
    get_command_type "tc_level" = some 1 ∧ valueEncodable (.int 3) ∧
    build_command_packet 1 (.int 3) =
      some (u32le 1 ++ u32le (valueTag (.int 3)) ++ valueBytes (.int 3)) :=
  ⟨by decide, ⟨by decide, by decide⟩,
    c5_command_packet_layout "tc_level" 1 (.int 3) (by decide)
      ⟨by decide, by decide⟩⟩

/-- C6: an unknown command name is rejected synchronously with the
unknown-command outcome, no datagram is handed to the socket, and the
command-history map is returned unchanged. -/
theorem c6_unknown_command (hist : List (String × CmdRecord)) (name : String)
    (v : CValue) (now : ℚ) (hname : get_command_type name = none) :
    send_command true hist name v now = (.unknownCommand, hist, none) := by
  simp [send_command, hname]

/-- C6 witness: the name `tc_mode` is not in the registry. -/
theorem c6_unknown_command_witness :
    get_command_type "tc_mode" = none ∧
    send_command true [] "tc_mode" (.int 1) 0 = (.unknownCommand, [], none) :=
  ⟨by decide, c6_unknown_command [] "tc_mode" (.int 1) 0 (by decide)⟩

/-- C7, counterexample: a Handshake datagram with an empty payload decodes
to the empty dict `{}` — a falsy result carrying no name fields, treated
by the caller like a failed parse — not to a handshake result with two
empty name strings (which would be the distinct, truthy value
`handshake [] []`). -/
theorem c7_counterexample :
    parse [0, 0, 0, 0] = .failEmpty ∧
    isTruthy ParseOutcome.failEmpty = false ∧
    isTruthy (ParseOutcome.handshake [] []) = true := by
  decide

/-- C7, amended: a Handshake datagram whose payload is shorter than
8 bytes decodes to the empty dict, which the caller treats as a failed
parse: `current_data` is left unchanged and no name fields (empty or
otherwise) are reported. -/
theorem c7_short_handshake (payload : List Nat) (cur : CurrentData)
    (h : payload.length < 8) :
    parse (0 :: 0 :: 0 :: 0 :: payload) = .failEmpty ∧
    process_telemetry_data cur (0 :: 0 :: 0 :: 0 :: payload) = cur := by
  have hp : parse (0 :: 0 :: 0 :: 0 :: payload) = .failEmpty := by
    simp [parse, leU32, parse_handshaker, h]
  exact ⟨hp, by simp [process_telemetry_data, hp, isTruthy]⟩

/-- C7 witness: the empty Handshake payload. -/
theorem c7_short_handshake_witness :
    ([] : List Nat).length < 8 ∧
    (parse [0, 0, 0, 0] = .failEmpty ∧
      process_telemetry_data ⟨none, none, none, none⟩ [0, 0, 0, 0] =
        ⟨none, none, none, none⟩) :=
  ⟨by decide, c7_short_handshake [] ⟨none, none, none, none⟩ (by decide)⟩

/-- C8, counterexample: a handshake whose car-name bytes are the invalid
UTF-8 sequence `FF` decodes the name to the empty string — the invalid
byte is dropped (`errors='ignore'`) — whereas replacement decoding, which
the claim prescribes, would produce U+FFFD. -/
theorem c8_counterexample :
    parse (0 :: 0 :: 0 :: 0 :: [1, 0, 0, 0, 0, 0, 0, 0, 255]) =
      .handshake [] [] ∧
    rstripNul (utf8DecodeReplace [255]) = [65533] := by
  decide

/-- C8, amended: handshake names are decoded with ignore-on-invalid-UTF-8
semantics — invalid byte sequences are dropped, not replaced — and
trailing NUL padding is stripped. For a well-formed handshake payload
(lengths below 2^32, names back to back) the decode is exactly
`rstripNul ∘ utf8DecodeIgnore` on each name's bytes. -/
theorem c8_handshake_names (carB drvB : List Nat)
    (hc : carB.length < 4294967296) (hd : drvB.length < 4294967296) :
    parse (0 :: 0 :: 0 :: 0 ::
        (u32le carB.length ++ u32le drvB.length ++ carB ++ drvB)) =
      .handshake (rstripNul (utf8DecodeIgnore carB))
        (rstripNul (utf8DecodeIgnore drvB)) := by
  simp only [u32le, List.cons_append, List.nil_append]
  simp only [parse, leU32]
  norm_num
  rw [parse_handshaker]
  rw [if_neg (by simp [List.length_append])]
  simp only [readU32_cons_0, readU32_cons_4, drop8_cons,
    leU32_u32le _ hc, leU32_u32le _ hd, List.take_left, List.drop_left,
    List.take_length]

/-- C8 witness: car-name bytes `41 FF 00` (an `A`, an invalid byte, NUL
padding) decode to `A`; driver-name bytes `42` decode to `B`. -/
theorem c8_handshake_names_witness :
    [65, 255, 0].length < 4294967296 ∧ [66].length < 4294967296 ∧
    rstripNul (utf8DecodeIgnore [65, 255, 0]) = [65] ∧
    parse (0 :: 0 :: 0 :: 0 ::
        (u32le [65, 255, 0].length ++ u32le [66].length ++
          [65, 255, 0] ++ [66])) =
      .handshake (rstripNul (utf8DecodeIgnore [65, 255, 0]))
        (rstripNul (utf8DecodeIgnore [66])) :=
  ⟨by decide, by decide, by decide,
    c8_handshake_names [65, 255, 0] [66] (by decide) (by decide)⟩

/-- C9: for every Update payload of at least 328 bytes that decodes
successfully, `speed_kmh` is the LE f32 at payload offset 0, `speed_mph`
is `speed_kmh * 0.621371`, and each four-element array holds the four
consecutive f32 values from its payload offset (92, 108, 124, 140, 156,
172) in FL, FR, RL, RR order. -/
theorem c9_update_layout (d : List Nat) (u : UpdateData)
    (hlen : 328 ≤ d.length) (h : parse_update d = .update u) :
    u.speed_kmh = readF32 d 0 ∧
    u.speed_mph = f32MulPos u.speed_kmh (621371 / 1000000) ∧
    u.wheel_angular_speed =
      [readF32 d 92, readF32 d 96, readF32 d 100, readF32 d 104] ∧
    u.wheel_slip =
      [readF32 d 108, readF32 d 112, readF32 d 116, readF32 d 120] ∧
    u.wheel_load =
      [readF32 d 124, readF32 d 128, readF32 d 132, readF32 d 136] ∧
    u.tire_pressure =
      [readF32 d 140, readF32 d 144, readF32 d 148, readF32 d 152] ∧
    u.tire_temperature_core =
      [readF32 d 156, readF32 d 160, readF32 d 164, readF32 d 168] ∧
    u.suspension_travel =
      [readF32 d 172, readF32 d 176, readF32 d 180, readF32 d 184] :=
  (parse_update_fields d u h).2

/-- C9 witness: the all-zero 328-byte payload. -/
theorem c9_update_layout_witness :
    328 ≤ zeroPayload.length ∧
    parse_update zeroPayload = .update zeroUpdate ∧
    (zeroUpdate.speed_kmh = readF32 zeroPayload 0 ∧
    zeroUpdate.speed_mph = f32MulPos zeroUpdate.speed_kmh (621371 / 1000000) ∧
    zeroUpdate.wheel_angular_speed =
      [readF32 zeroPayload 92, readF32 zeroPayload 96, readF32 zeroPayload 100,
        readF32 zeroPayload 104] ∧
    zeroUpdate.wheel_slip =
      [readF32 zeroPayload 108, readF32 zeroPayload 112, readF32 zeroPayload 116,
        readF32 zeroPayload 120] ∧
    zeroUpdate.wheel_load =
      [readF32 zeroPayload 124, readF32 zeroPayload 128, readF32 zeroPayload 132,
        readF32 zeroPayload 136] ∧
    zeroUpdate.tire_pressure =
      [readF32 zeroPayload 140, readF32 zeroPayload 144, readF32 zeroPayload 148,
        readF32 zeroPayload 152] ∧
    zeroUpdate.tire_temperature_core =
      [readF32 zeroPayload 156, readF32 zeroPayload 160, readF32 zeroPayload 164,
        readF32 zeroPayload 168] ∧
    zeroUpdate.suspension_travel =
      [readF32 zeroPayload 172, readF32 zeroPayload 176, readF32 zeroPayload 180,
        readF32 zeroPayload 184]) :=
  ⟨by simp [zeroPayload], parse_update_zeroPayload,
    c9_update_layout zeroPayload zeroUpdate (by simp [zeroPayload])
      parse_update_zeroPayload⟩

/-- C10: a known command sent with a value that is neither bool, int nor
float fails with the packet-build outcome, hands no datagram to the
socket, and leaves the command-history map unchanged, so the last
recorded command for that name is unaffected. -/
theorem c10_unsupported_value (hist : List (String × CmdRecord))
    (name : String) (code : Nat) (now : ℚ)
    (hname : get_command_type name = some code) :
    send_command true hist name .other now = (.packFailed, hist, none) ∧
    get_last_command (send_command true hist name .other now).2.1 name =
      get_last_command hist name := by
  have hs : send_command true hist name .other now =
      (.packFailed, hist, none) := by
    simp [send_command, hname, build_command_packet]
  exact ⟨hs, by rw [hs]⟩

/-- C10 witness: `tc_level` with an unsupported value. -/
theorem c10_unsupported_value_witness :
    get_command_type "tc_level" = some 1 ∧
    (send_command true [] "tc_level" .other 0 = (.packFailed, [], none) ∧
      get_last_command (send_command true [] "tc_level" .other 0).2.1
          "tc_level" =
        get_last_command [] "tc_level") :=
  ⟨by decide, c10_unsupported_value [] "tc_level" 1 0 (by decide)⟩

end ACDash
